import Mathlib

/-!
Shallow embedding of the splerg-p2p escrow program
(src/programs/splerg-p2p/src/processor/mod.rs).

Pubkeys are modelled as `Nat`. Token amounts are u64 values modelled as
`Nat`; the SPL token programs use checked arithmetic, so a transfer fails
rather than wraps on overflow, and the embedding checks `2^64` bounds at
the transfer. Account state is passed explicitly; every handler returns
`Except SwapErr` with the updated accounts and the list of token transfers
it performed, and an `.error` result means the enclosing transaction
aborts with no state change (the ledger runtime commits all-or-nothing).

The repository source available is the processor module only; the
`validation`, `state`, `error` and `instruction` modules it calls are not
in the source tree, so those leaf functions are modelled from the spec
(each such definition's doc comment says so).
-/

namespace SplergP2p

/-- Width bound of a u64 token amount. -/
def U64_MOD : Nat := 2 ^ 64

/-- Identity of the plain SPL token program (`spl_token::id()`), as an
abstract distinct key. -/
def splTokenId : Nat := 1

/-- Identity of the token-2022 program (`spl_token_2022::id()`). -/
def splToken2022Id : Nat := 2

/-- Identity of the system program. -/
def systemProgramId : Nat := 3

/-- Identity of the rent sysvar. -/
def rentSysvarId : Nat := 4

/-- Error kinds surfaced by the processor. `SwapError::InsufficientFunds` and
`ProgramError::InvalidArgument` appear literally in the processor; the rest
are the distinct error kinds of the spec's validation layer (§4.2, §7). -/
inductive SwapErr where
  | MissingSigner
  | InvalidAmount
  | AccountOwnerMismatch
  | AssetDescriptorMismatch
  | AddressMismatch
  | AuthorityMismatch
  | CounterpartyMismatch
  | InsufficientFunds
  | InvalidArgument
  | InvalidAccountData
  | IncorrectProgramId
  | AccountAlreadyInUse
  | ArithmeticOverflow
deriving Repr, DecidableEq

/-- The persistent order record (`state::SwapOrder`), fields in the order the
processor passes them to `SwapOrder::new`. -/
structure SwapOrder where
  maker : Nat
  taker : Nat
  maker_token_mint : Nat
  taker_token_mint : Nat
  maker_amount : Nat
  taker_amount : Nat
  bump : Nat
deriving Repr, DecidableEq

/-- Constructor mirroring `SwapOrder::new`. -/
def SwapOrder.new (maker taker maker_token_mint taker_token_mint
    maker_amount taker_amount bump : Nat) : SwapOrder :=
  ⟨maker, taker, maker_token_mint, taker_token_mint, maker_amount, taker_amount, bump⟩

/-- A transaction account as the processor sees it: its address and whether
the transaction was signed by it. -/
structure AccountMeta where
  key : Nat
  is_signer : Bool
deriving Repr, DecidableEq

/-- An SPL token (asset-holding) account: address, declared owner, declared
mint, balance. -/
structure TokenAccount where
  key : Nat
  owner : Nat
  mint : Nat
  amount : Nat
deriving Repr, DecidableEq

/-- A mint (asset-descriptor) account: address, the token program that owns
it, decimals. -/
structure MintAccount where
  key : Nat
  owner_program : Nat
  decimals : Nat
deriving Repr, DecidableEq

/-- One executed token transfer, recorded as (source key, destination key,
authority key, amount). -/
structure Transfer where
  source : Nat
  dest : Nat
  authority : Nat
  amount : Nat
deriving Repr, DecidableEq

/-- Modelled from the spec (§4.1, missing `validation::get_order_pda`): the
derived-address authenticator, a deterministic pure function of program
identity, maker and the two asset identifiers, returning the canonical
address and the bump. The concrete pairing stands in for the hash-based
derivation; only determinism is relied on. -/
def get_order_pda (program_id maker maker_mint taker_mint : Nat) : Nat × Nat :=
  (Nat.pair 7 (Nat.pair program_id (Nat.pair maker (Nat.pair maker_mint taker_mint))), 254)

/-- Modelled from the spec (§4.2, missing `validation::validate_signer`):
signer-required check. -/
def validate_signer (acc : AccountMeta) : Except SwapErr Unit :=
  if acc.is_signer then .ok () else .error .MissingSigner

/-- Modelled from the spec (§4.2, missing `validation::validate_init_amounts`):
amount-positive check, both legs nonzero, else `InvalidAmount`. -/
def validate_init_amounts (maker_amount taker_amount : Nat) : Except SwapErr Unit :=
  if maker_amount = 0 ∨ taker_amount = 0 then .error .InvalidAmount else .ok ()

/-- Modelled from the spec (§4.2, missing `validation::validate_token_mint`):
asset-type well-formed — the mint account is owned by one of the two token
programs. -/
def validate_token_mint (m : MintAccount) : Except SwapErr Unit :=
  if m.owner_program = splTokenId ∨ m.owner_program = splToken2022Id then .ok ()
  else .error .InvalidAccountData

/-- Embedding of `spl_token_2022::check_spl_token_program_account`: the
supplied token-program key must be one of the two token program ids. -/
def check_spl_token_program_account (key : Nat) : Except SwapErr Unit :=
  if key = splTokenId ∨ key = splToken2022Id then .ok () else .error .IncorrectProgramId

/-- Modelled from the spec (§4.2, missing `validation::validate_token_program`):
the asset's declared custody service must match the supplied token program. -/
def validate_token_program (m : MintAccount) (token_program_key : Nat) : Except SwapErr Unit :=
  if m.owner_program = token_program_key then .ok () else .error .IncorrectProgramId

/-- Modelled from the spec (§4.2, missing `validation::validate_token_account`):
account-belongs-to-owner-and-asset — the holding account's declared owner and
mint must equal the expected values. -/
def validate_token_account (acc : TokenAccount) (expected_owner expected_mint : Nat) :
    Except SwapErr Unit :=
  if acc.owner ≠ expected_owner then .error .AccountOwnerMismatch
  else if acc.mint ≠ expected_mint then .error .AssetDescriptorMismatch
  else .ok ()

/-- Modelled from the spec (§4.2, missing `validation::validate_system_program`). -/
def validate_system_program (key : Nat) : Except SwapErr Unit :=
  if key = systemProgramId then .ok () else .error .IncorrectProgramId

/-- Modelled from the spec (§4.2, missing `validation::validate_rent_sysvar`). -/
def validate_rent_sysvar (key : Nat) : Except SwapErr Unit :=
  if key = rentSysvarId then .ok () else .error .IncorrectProgramId

/-- Modelled from the spec (§4.2/§8, missing `validation::validate_authority`):
the caller must have signed and must equal `order.maker`, else
`AuthorityMismatch`. -/
def validate_authority (caller : AccountMeta) (order : SwapOrder) : Except SwapErr Unit :=
  if ¬ caller.is_signer then .error .MissingSigner
  else if caller.key = order.maker then .ok () else .error .AuthorityMismatch

/-- Modelled from the spec (§4.2/§8, missing `validation::validate_taker`):
the caller must have signed and must equal `order.taker`, else
`CounterpartyMismatch`. -/
def validate_taker (caller : AccountMeta) (order : SwapOrder) : Except SwapErr Unit :=
  if ¬ caller.is_signer then .error .MissingSigner
  else if caller.key = order.taker then .ok () else .error .CounterpartyMismatch

/-- Modelled from the spec (§4.1, missing `validation::validate_order_pda`):
deserializes the supplied order record, recomputes the derived address from
the record's own key fields, and fails with `AddressMismatch` when it
disagrees with the account's address; otherwise returns the record and bump. -/
def validate_order_pda (program_id order_key : Nat) (record : Option SwapOrder) :
    Except SwapErr (SwapOrder × Nat) :=
  match record with
  | none => .error .InvalidAccountData
  | some o =>
    let pb := get_order_pda program_id o.maker o.maker_token_mint o.taker_token_mint
    if order_key = pb.1 then .ok (o, pb.2) else .error .AddressMismatch

/-- Balance effect of `spl_token(_2022)::instruction::transfer` (and of
`transfer_checked`, identical on balances): fails on an insufficient source
balance, fails on u64 overflow of the destination (the token program uses
checked addition), otherwise moves `amount`. -/
def token_transfer (src dst : TokenAccount) (amount : Nat) :
    Except SwapErr (TokenAccount × TokenAccount) :=
  if src.amount < amount then .error .InsufficientFunds
  else if U64_MOD ≤ dst.amount + amount then .error .ArithmeticOverflow
  else .ok ({ src with amount := src.amount - amount },
            { dst with amount := dst.amount + amount })

/-- Account list of `process_initialize_order`, in source order, plus the
order account's current record (`none` = no storage allocated yet). -/
structure InitAccounts where
  maker_info : AccountMeta
  order_key : Nat
  order_record : Option SwapOrder
  maker_mint_ata : TokenAccount
  order_maker_mint_ata : TokenAccount
  taker_key : Nat
  maker_mint : MintAccount
  taker_mint : MintAccount
  system_program_key : Nat
  rent_key : Nat
  token_program_key : Nat
deriving Repr, DecidableEq

/-- Embedding of `Processor::process_initialize_order` (CreateOrder).
Checks run in source order. The `invoke_signed` creation of the order
account succeeds only when the order account's address equals the derived
address (the runtime verifies the seed-based signature) and the account is
not already in use; rent-lamport bookkeeping is outside the model. -/
def process_initialize_order (program_id : Nat) (s : InitAccounts)
    (maker_amount taker_amount : Nat) : Except SwapErr (InitAccounts × List Transfer) := do
  let _ ← validate_signer s.maker_info
  let _ ← validate_init_amounts maker_amount taker_amount
  let _ ← validate_token_mint s.maker_mint
  let _ ← validate_token_mint s.taker_mint
  let _ ← check_spl_token_program_account s.token_program_key
  let _ ← validate_token_program s.maker_mint s.token_program_key
  let _ ← validate_token_account s.maker_mint_ata s.maker_info.key s.maker_mint.key
  let _ ← validate_system_program s.system_program_key
  let _ ← validate_rent_sysvar s.rent_key
  let _ ← validate_token_account s.order_maker_mint_ata s.order_key s.maker_mint.key
  let pb := get_order_pda program_id s.maker_info.key s.maker_mint.key s.taker_mint.key
  if s.order_key ≠ pb.1 then throw .AddressMismatch
  else if s.order_record.isSome then throw .AccountAlreadyInUse
  else do
    -- the source dispatches on `token_program.key == spl_token::id()` between
    -- `transfer` and `transfer_checked`; both arms move `maker_amount` from the
    -- maker's ATA to custody with the maker as authority, so one call models both
    let (src, dst) ← token_transfer s.maker_mint_ata s.order_maker_mint_ata maker_amount
    let order := SwapOrder.new s.maker_info.key s.taker_key s.maker_mint.key
      s.taker_mint.key maker_amount taker_amount pb.2
    pure ({ s with maker_mint_ata := src, order_maker_mint_ata := dst,
                   order_record := some order },
          [⟨s.maker_mint_ata.key, s.order_maker_mint_ata.key, s.maker_info.key, maker_amount⟩])

/-- Account list of `process_change_order_amounts`, in source order. -/
structure AmendAccounts where
  maker_info : AccountMeta
  order_key : Nat
  order_record : Option SwapOrder
  order_token_account : TokenAccount
  maker_token_account : TokenAccount
  token_program_key : Nat
deriving Repr, DecidableEq

/-- Embedding of `Processor::process_change_order_amounts` (AmendAmounts).
The custody account is validated twice, as in the source; the maker's
holding account (fourth account) is never validated. Reconciliation
compares `new_maker_amount` with the custody account's actual balance. -/
def process_change_order_amounts (program_id : Nat) (s : AmendAccounts)
    (new_maker_amount new_taker_amount : Nat) : Except SwapErr (AmendAccounts × List Transfer) := do
  let (order, _) ← validate_order_pda program_id s.order_key s.order_record
  let _ ← validate_authority s.maker_info order
  let _ ← check_spl_token_program_account s.token_program_key
  let _ ← validate_token_account s.order_token_account s.order_key order.maker_token_mint
  let _ ← validate_token_account s.order_token_account s.order_key order.maker_token_mint
  let current := s.order_token_account.amount
  let order2 := { order with maker_amount := new_maker_amount, taker_amount := new_taker_amount }
  if current < new_maker_amount then do
    let additional := new_maker_amount - current
    -- two-variant token-program dispatch in the source; both arms deposit
    -- `additional` from the maker's account into custody, maker-signed
    let (src, dst) ← token_transfer s.maker_token_account s.order_token_account additional
    pure ({ s with maker_token_account := src, order_token_account := dst,
                   order_record := some order2 },
          [⟨s.maker_token_account.key, s.order_token_account.key, s.maker_info.key, additional⟩])
  else if new_maker_amount < current then do
    let refund := current - new_maker_amount
    -- two-variant token-program dispatch; both arms refund `refund` from
    -- custody to the maker's account, signed with the derived-address seeds
    let (src, dst) ← token_transfer s.order_token_account s.maker_token_account refund
    pure ({ s with order_token_account := src, maker_token_account := dst,
                   order_record := some order2 },
          [⟨s.order_token_account.key, s.maker_token_account.key, s.order_key, refund⟩])
  else
    pure ({ s with order_record := some order2 }, [])

/-- Account list of `process_change_taker`, in source order. -/
structure TakerAccounts where
  maker_info : AccountMeta
  order_key : Nat
  order_record : Option SwapOrder
  new_taker_key : Nat
deriving Repr, DecidableEq

/-- Embedding of `Processor::process_change_taker` (ReassignCounterparty).
The source deserializes the order record directly (`SwapOrder::try_from_slice`)
and calls no `validate_order_pda`; it is the only record-reading handler
that skips the derived-address authentication, and it receives no
`program_id` with which to recompute the address. -/
def process_change_taker (s : TakerAccounts) (new_taker : Nat) :
    Except SwapErr TakerAccounts := do
  let order ← match s.order_record with
    | none => throw SwapErr.InvalidAccountData
    | some o => pure o
  let _ ← validate_authority s.maker_info order
  if new_taker ≠ s.new_taker_key then throw .InvalidArgument
  else pure { s with order_record := some { order with taker := new_taker } }

/-- Account list of `process_complete_swap`, in source order. -/
structure SettleAccounts where
  taker_info : AccountMeta
  order_key : Nat
  order_record : Option SwapOrder
  maker_taker_mint_ata : TokenAccount
  taker_sending_ata : TokenAccount
  taker_maker_mint_ata : TokenAccount
  order_maker_token_ata : TokenAccount
  token_program_key : Nat
deriving Repr, DecidableEq

/-- Embedding of `Processor::process_complete_swap` (Settle): after the
validations and the custody-balance check, a taker-signed transfer of
`taker_amount` to the maker and a program-signed transfer of `maker_amount`
from custody to the taker; the order record is not written. -/
def process_complete_swap (program_id : Nat) (s : SettleAccounts) :
    Except SwapErr (SettleAccounts × List Transfer) := do
  let (order, _) ← validate_order_pda program_id s.order_key s.order_record
  let _ ← validate_taker s.taker_info order
  let _ ← check_spl_token_program_account s.token_program_key
  let _ ← validate_token_account s.maker_taker_mint_ata order.maker order.taker_token_mint
  let _ ← validate_token_account s.taker_maker_mint_ata s.taker_info.key order.maker_token_mint
  let _ ← validate_token_account s.taker_sending_ata s.taker_info.key order.taker_token_mint
  let _ ← validate_token_account s.order_maker_token_ata s.order_key order.maker_token_mint
  if s.order_maker_token_ata.amount < order.maker_amount then throw .InsufficientFunds
  else do
    -- each leg carries the source's two-variant token-program dispatch; the
    -- arms of each are the same transfer, so one call per leg models both
    let (src1, dst1) ← token_transfer s.taker_sending_ata s.maker_taker_mint_ata order.taker_amount
    let (src2, dst2) ← token_transfer s.order_maker_token_ata s.taker_maker_mint_ata order.maker_amount
    pure ({ s with taker_sending_ata := src1, maker_taker_mint_ata := dst1,
                   order_maker_token_ata := src2, taker_maker_mint_ata := dst2 },
          [⟨s.taker_sending_ata.key, s.maker_taker_mint_ata.key, s.taker_info.key, order.taker_amount⟩,
           ⟨s.order_maker_token_ata.key, s.taker_maker_mint_ata.key, s.order_key, order.maker_amount⟩])

/-- Account list of `process_close_order`, in source order, plus the lamport
balances the handler reads or writes. `order_token_ata_open` records whether
the custody token account still exists (`close_account` destroys it). -/
structure CloseAccounts where
  authority_info : AccountMeta
  order_key : Nat
  order_record : Option SwapOrder
  order_lamports : Nat
  order_token_ata : TokenAccount
  order_token_ata_lamports : Nat
  order_token_ata_open : Bool
  maker_token_ata : TokenAccount
  authority_lamports : Nat
  token_program_key : Nat
deriving Repr, DecidableEq

/-- Embedding of `Processor::process_close_order` (CloseOrder). Only when the
custody balance is positive does the source transfer it to the maker and
`close_account` the custody account (returning its lamports to the caller);
the order record's lamports are always moved to the caller and its data
zeroed (modelled as `order_record := none`). -/
def process_close_order (program_id : Nat) (s : CloseAccounts) :
    Except SwapErr (CloseAccounts × List Transfer) := do
  let (order, _) ← validate_order_pda program_id s.order_key s.order_record
  let _ ← validate_authority s.authority_info order
  let _ ← check_spl_token_program_account s.token_program_key
  let _ ← validate_token_account s.order_token_ata s.order_key order.maker_token_mint
  let _ ← validate_token_account s.maker_token_ata order.maker order.maker_token_mint
  let amt := s.order_token_ata.amount
  let (s1, ts) ←
    if 0 < amt then do
      -- two-variant token-program dispatch; both arms transfer the full
      -- balance to the maker and then `close_account` the custody account
      let (src, dst) ← token_transfer s.order_token_ata s.maker_token_ata amt
      pure ({ s with order_token_ata := src, maker_token_ata := dst,
                     order_token_ata_open := false,
                     order_token_ata_lamports := 0,
                     authority_lamports := s.authority_lamports + s.order_token_ata_lamports },
            [(⟨s.order_token_ata.key, s.maker_token_ata.key, s.order_key, amt⟩ : Transfer)])
    else pure (s, ([] : List Transfer))
  pure ({ s1 with order_lamports := 0,
                  authority_lamports := s1.authority_lamports + s1.order_lamports,
                  order_record := none }, ts)

/-! Concrete instances used to exercise the handlers: maker 10, taker 11,
maker mint 20, taker mint 21, program id 9, token accounts 30/31/32/33/40,
plain token program (key 1). -/

/-- Canonical derived order address for program 9, maker 10, mints 20/21. -/
def pdaK : Nat := (get_order_pda 9 10 20 21).1

/-- A stored order record for maker 10 / taker 11 / mints 20,21. -/
def c1order : SwapOrder := ⟨10, 11, 20, 21, 100, 40, 254⟩

/-- ChangeTaker account list whose order account sits at address 5, which is
not the derived address of any (program, maker, mints) tuple. -/
def c1state : TakerAccounts := ⟨⟨10, true⟩, 5, some c1order, 11⟩

/-- CreateOrder account list whose custody token account already holds 5
tokens before the order is created. -/
def c4state : InitAccounts :=
  ⟨⟨10, true⟩, pdaK, none, ⟨30, 10, 20, 1000⟩, ⟨31, pdaK, 20, 5⟩, 11,
   ⟨20, 1, 6⟩, ⟨21, 1, 6⟩, 3, 4, 1⟩

/-- CreateOrder account list with an empty custody token account. -/
def w4state : InitAccounts :=
  ⟨⟨10, true⟩, pdaK, none, ⟨30, 10, 20, 1000⟩, ⟨31, pdaK, 20, 0⟩, 11,
   ⟨20, 1, 6⟩, ⟨21, 1, 6⟩, 3, 4, 1⟩

/-- Expected successful result of CreateOrder(10, 20) on `w4state`. -/
def w4result : InitAccounts × List Transfer :=
  (⟨⟨10, true⟩, pdaK, some ⟨10, 11, 20, 21, 10, 20, 254⟩, ⟨30, 10, 20, 990⟩,
    ⟨31, pdaK, 20, 10⟩, 11, ⟨20, 1, 6⟩, ⟨21, 1, 6⟩, 3, 4, 1⟩,
   [⟨30, 31, 10, 10⟩])

/-- An open order of maker 10 escrowing 100 of mint 20 against 40 of mint 21. -/
def ord6 : SwapOrder := ⟨10, 11, 20, 21, 100, 40, 254⟩

/-- AmendAmounts account list with custody balance 100. -/
def s6a : AmendAccounts := ⟨⟨10, true⟩, pdaK, some ord6, ⟨31, pdaK, 20, 100⟩, ⟨40, 10, 20, 500⟩, 1⟩

/-- AmendAmounts account list with custody balance 150. -/
def s6b : AmendAccounts :=
  ⟨⟨10, true⟩, pdaK, some ⟨10, 11, 20, 21, 150, 40, 254⟩, ⟨31, pdaK, 20, 150⟩,
   ⟨40, 10, 20, 500⟩, 1⟩

/-- AmendAmounts account list with custody balance 100, target also 100. -/
def s6c : AmendAccounts := ⟨⟨10, true⟩, pdaK, some ord6, ⟨31, pdaK, 20, 100⟩, ⟨40, 10, 20, 500⟩, 1⟩

/-- AmendAmounts account list with custody balance 30. -/
def s7 : AmendAccounts :=
  ⟨⟨10, true⟩, pdaK, some ⟨10, 11, 20, 21, 30, 40, 254⟩, ⟨31, pdaK, 20, 30⟩,
   ⟨40, 10, 20, 500⟩, 1⟩

/-- Expected successful result of AmendAmounts(60, 5) on `s7`. -/
def r7 : AmendAccounts × List Transfer :=
  (⟨⟨10, true⟩, pdaK, some ⟨10, 11, 20, 21, 60, 5, 254⟩, ⟨31, pdaK, 20, 60⟩,
    ⟨40, 10, 20, 470⟩, 1⟩,
   [⟨40, 31, 10, 30⟩])

/-- AmendAmounts account list with custody balance 80, used with target 0. -/
def s9 : AmendAccounts := ⟨⟨10, true⟩, pdaK, some ord6, ⟨31, pdaK, 20, 80⟩, ⟨40, 10, 20, 500⟩, 1⟩

/-- Settle account list: custody holds 100, the taker sends 40. -/
def s2good : SettleAccounts :=
  ⟨⟨11, true⟩, pdaK, some ⟨10, 11, 20, 21, 100, 40, 254⟩, ⟨30, 10, 21, 5⟩,
   ⟨31, 11, 21, 500⟩, ⟨32, 11, 20, 7⟩, ⟨33, pdaK, 20, 100⟩, 1⟩

/-- Settle account list whose custody balance 99 is below maker_amount 100. -/
def s2bad : SettleAccounts :=
  ⟨⟨11, true⟩, pdaK, some ⟨10, 11, 20, 21, 100, 40, 254⟩, ⟨30, 10, 21, 5⟩,
   ⟨31, 11, 21, 500⟩, ⟨32, 11, 20, 7⟩, ⟨33, pdaK, 20, 99⟩, 1⟩

/-- CloseOrder account list with custody balance 70 and lamports to reclaim. -/
def c3w_state : CloseAccounts :=
  ⟨⟨10, true⟩, pdaK, some ⟨10, 11, 20, 21, 70, 40, 254⟩, 1500,
   ⟨31, pdaK, 20, 70⟩, 2000, true, ⟨30, 10, 20, 5⟩, 10, 1⟩

/-- Expected successful result of CloseOrder on `c3w_state`. -/
def c3w_result : CloseAccounts × List Transfer :=
  (⟨⟨10, true⟩, pdaK, none, 0, ⟨31, pdaK, 20, 0⟩, 0, false, ⟨30, 10, 20, 75⟩, 3510, 1⟩,
   [⟨31, 30, pdaK, 70⟩])

/-- CloseOrder account list whose custody token account is empty but still
carries 2000 lamports of allocation cost. -/
def c3z_state : CloseAccounts :=
  ⟨⟨10, true⟩, pdaK, some ⟨10, 11, 20, 21, 0, 40, 254⟩, 1500,
   ⟨31, pdaK, 20, 0⟩, 2000, true, ⟨30, 10, 20, 5⟩, 10, 1⟩

/-- ChangeTaker account list: maker 10 signs, supplied new-taker account 7. -/
def s8 : TakerAccounts := ⟨⟨10, true⟩, 99, some ⟨10, 11, 20, 21, 5, 6, 254⟩, 7⟩

/-! Inversion helpers: extract the conditions a successful run certifies. -/

theorem bind_ok_inv {a b : Type} {m : Except SwapErr a} {k : a → Except SwapErr b} {r : b}
    (h : m >>= k = .ok r) : ∃ v, m = .ok v ∧ k v = .ok r := by
  cases m with
  | error e => exact absurd h (by simp [Bind.bind, Except.bind])
  | ok v => exact ⟨v, rfl, by simpa [Bind.bind, Except.bind] using h⟩

theorem validate_signer_ok {acc : AccountMeta} {v : Unit}
    (h : validate_signer acc = .ok v) : acc.is_signer = true := by
  by_contra hc; simp [validate_signer, hc] at h

theorem validate_init_amounts_ok {ma ta : Nat} {v : Unit}
    (h : validate_init_amounts ma ta = .ok v) : 0 < ma ∧ 0 < ta := by
  by_contra hc
  have : ma = 0 ∨ ta = 0 := by omega
  simp [validate_init_amounts, this] at h

theorem validate_token_account_ok {acc : TokenAccount} {o m : Nat} {v : Unit}
    (h : validate_token_account acc o m = .ok v) : acc.owner = o ∧ acc.mint = m := by
  unfold validate_token_account at h
  split at h
  · exact absurd h (by simp)
  · split at h
    · exact absurd h (by simp)
    · simp_all

theorem validate_authority_ok {caller : AccountMeta} {order : SwapOrder} {v : Unit}
    (h : validate_authority caller order = .ok v) :
    caller.is_signer = true ∧ caller.key = order.maker := by
  unfold validate_authority at h
  split at h
  · exact absurd h (by simp)
  · split at h
    · simp_all
    · exact absurd h (by simp)

theorem validate_taker_ok {caller : AccountMeta} {order : SwapOrder} {v : Unit}
    (h : validate_taker caller order = .ok v) :
    caller.is_signer = true ∧ caller.key = order.taker := by
  unfold validate_taker at h
  split at h
  · exact absurd h (by simp)
  · split at h
    · simp_all
    · exact absurd h (by simp)

theorem validate_order_pda_ok {pid order_key : Nat} {record : Option SwapOrder}
    {r : SwapOrder × Nat} (h : validate_order_pda pid order_key record = .ok r) :
    record = some r.1 ∧
    order_key = (get_order_pda pid r.1.maker r.1.maker_token_mint r.1.taker_token_mint).1 ∧
    r.2 = (get_order_pda pid r.1.maker r.1.maker_token_mint r.1.taker_token_mint).2 := by
  unfold validate_order_pda at h
  split at h
  · exact absurd h (by simp)
  · simp only [] at h
    split at h
    · cases h; simp_all
    · exact absurd h (by simp)

theorem token_transfer_ok {src dst : TokenAccount} {amount : Nat}
    {r : TokenAccount × TokenAccount} (h : token_transfer src dst amount = .ok r) :
    amount ≤ src.amount ∧ dst.amount + amount < U64_MOD ∧
    r.1 = { src with amount := src.amount - amount } ∧
    r.2 = { dst with amount := dst.amount + amount } := by
  unfold token_transfer at h
  split at h
  · exact absurd h (by simp)
  · split at h
    · exact absurd h (by simp)
    · cases h; simp_all

theorem initialize_ok_inv (pid : Nat) (s : InitAccounts) (ma ta : Nat)
    (r : InitAccounts × List Transfer)
    (h : process_initialize_order pid s ma ta = .ok r) :
    0 < ma ∧ 0 < ta ∧ s.order_record = none ∧
    s.order_key = (get_order_pda pid s.maker_info.key s.maker_mint.key s.taker_mint.key).1 ∧
    ma ≤ s.maker_mint_ata.amount ∧
    r.1 = { s with
        maker_mint_ata := { s.maker_mint_ata with amount := s.maker_mint_ata.amount - ma },
        order_maker_mint_ata :=
          { s.order_maker_mint_ata with amount := s.order_maker_mint_ata.amount + ma },
        order_record := some (SwapOrder.new s.maker_info.key s.taker_key s.maker_mint.key
          s.taker_mint.key ma ta
          (get_order_pda pid s.maker_info.key s.maker_mint.key s.taker_mint.key).2) } ∧
    r.2 = [⟨s.maker_mint_ata.key, s.order_maker_mint_ata.key, s.maker_info.key, ma⟩] := by
  unfold process_initialize_order at h
  obtain ⟨u1, hv1, h⟩ := bind_ok_inv h
  obtain ⟨u2, hv2, h⟩ := bind_ok_inv h
  obtain ⟨u3, hv3, h⟩ := bind_ok_inv h
  obtain ⟨u4, hv4, h⟩ := bind_ok_inv h
  obtain ⟨u5, hv5, h⟩ := bind_ok_inv h
  obtain ⟨u6, hv6, h⟩ := bind_ok_inv h
  obtain ⟨u7, hv7, h⟩ := bind_ok_inv h
  obtain ⟨u8, hv8, h⟩ := bind_ok_inv h
  obtain ⟨u9, hv9, h⟩ := bind_ok_inv h
  obtain ⟨u10, hv10, h⟩ := bind_ok_inv h
  obtain ⟨hma, hta⟩ := validate_init_amounts_ok hv2
  simp only [] at h
  split at h
  · exact absurd h (by simp [throw, throwThe, MonadExceptOf.throw])
  · split at h
    · exact absurd h (by simp [throw, throwThe, MonadExceptOf.throw])
    · obtain ⟨p, hp, h⟩ := bind_ok_inv h
      obtain ⟨hle, hovf, hp1, hp2⟩ := token_transfer_ok hp
      obtain ⟨src, dst⟩ := p
      simp only [pure, Except.pure] at h
      cases h
      simp_all

theorem amend_ok_inv (pid : Nat) (s : AmendAccounts) (n t : Nat)
    (r : AmendAccounts × List Transfer)
    (h : process_change_order_amounts pid s n t = .ok r) :
    ∃ order, s.order_record = some order ∧
      s.order_key = (get_order_pda pid order.maker order.maker_token_mint
        order.taker_token_mint).1 ∧
      s.maker_info.is_signer = true ∧
      s.maker_info.key = order.maker ∧
      (s.token_program_key = splTokenId ∨ s.token_program_key = splToken2022Id) ∧
      s.order_token_account.owner = s.order_key ∧
      s.order_token_account.mint = order.maker_token_mint ∧
      r.1.order_record = some { order with maker_amount := n, taker_amount := t } ∧
      r.1.order_token_account.amount = n ∧
      r.1.maker_info = s.maker_info ∧
      r.1.order_key = s.order_key ∧
      r.1.token_program_key = s.token_program_key ∧
      r.1.order_token_account.key = s.order_token_account.key ∧
      r.1.order_token_account.owner = s.order_token_account.owner ∧
      r.1.order_token_account.mint = s.order_token_account.mint ∧
      r.1.maker_token_account.key = s.maker_token_account.key ∧
      (∀ tr ∈ r.2, (tr.source = s.maker_token_account.key ∧
          tr.dest = s.order_token_account.key) ∨
        (tr.source = s.order_token_account.key ∧
          tr.dest = s.maker_token_account.key)) := by
  unfold process_change_order_amounts at h
  obtain ⟨p0, hv0, h⟩ := bind_ok_inv h
  obtain ⟨order, bump⟩ := p0
  obtain ⟨hrec, hkey, hbump⟩ := validate_order_pda_ok hv0
  obtain ⟨u1, hv1, h⟩ := bind_ok_inv h
  obtain ⟨hsig, hauth⟩ := validate_authority_ok hv1
  obtain ⟨u2, hv2, h⟩ := bind_ok_inv h
  have htok : s.token_program_key = splTokenId ∨ s.token_program_key = splToken2022Id := by
    by_contra hc
    simp [check_spl_token_program_account, hc] at hv2
  obtain ⟨u3, hv3, h⟩ := bind_ok_inv h
  obtain ⟨hown, hmint⟩ := validate_token_account_ok hv3
  obtain ⟨u4, hv4, h⟩ := bind_ok_inv h
  simp only [] at h
  split at h
  · next hlt =>
    obtain ⟨p, hp, h⟩ := bind_ok_inv h
    obtain ⟨src, dst⟩ := p
    obtain ⟨hle, hovf, hp1, hp2⟩ := token_transfer_ok hp
    have hsrc : src = { s.maker_token_account with
      amount := s.maker_token_account.amount - (n - s.order_token_account.amount) } := hp1
    have hdst : dst = { s.order_token_account with
      amount := s.order_token_account.amount + (n - s.order_token_account.amount) } := hp2
    subst hsrc; subst hdst
    simp only [pure, Except.pure] at h
    cases h
    exact ⟨order, hrec, hkey, hsig, hauth, htok, hown, hmint, rfl,
      by simp only []; omega, rfl, rfl, rfl, rfl, rfl, rfl, rfl, by simp⟩
  · split at h
    · next hgt =>
      obtain ⟨p, hp, h⟩ := bind_ok_inv h
      obtain ⟨src, dst⟩ := p
      obtain ⟨hle, hovf, hp1, hp2⟩ := token_transfer_ok hp
      have hsrc : src = { s.order_token_account with
        amount := s.order_token_account.amount - (s.order_token_account.amount - n) } := hp1
      have hdst : dst = { s.maker_token_account with
        amount := s.maker_token_account.amount + (s.order_token_account.amount - n) } := hp2
      subst hsrc; subst hdst
      simp only [pure, Except.pure] at h
      cases h
      exact ⟨order, hrec, hkey, hsig, hauth, htok, hown, hmint, rfl,
        by simp only []; omega, rfl, rfl, rfl, rfl, rfl, rfl, rfl, by simp⟩
    · next hng hnl =>
      simp only [pure, Except.pure] at h
      cases h
      exact ⟨order, hrec, hkey, hsig, hauth, htok, hown, hmint, rfl,
        by simp only []; omega, rfl, rfl, rfl, rfl, rfl, rfl, rfl, by simp⟩

theorem amend_eval_equal (pid : Nat) (s : AmendAccounts) (order : SwapOrder) (n t : Nat)
    (hrec : s.order_record = some order)
    (hkey : s.order_key = (get_order_pda pid order.maker order.maker_token_mint
      order.taker_token_mint).1)
    (hsig : s.maker_info.is_signer = true)
    (hauth : s.maker_info.key = order.maker)
    (htok : s.token_program_key = splTokenId ∨ s.token_program_key = splToken2022Id)
    (hown : s.order_token_account.owner = s.order_key)
    (hmint : s.order_token_account.mint = order.maker_token_mint)
    (hamt : s.order_token_account.amount = n) :
    process_change_order_amounts pid s n t =
      .ok ({ s with
        order_record := some { order with maker_amount := n, taker_amount := t } }, []) := by
  unfold process_change_order_amounts
  simp [validate_order_pda, hrec, hkey, validate_authority, hsig, hauth,
    check_spl_token_program_account, htok, validate_token_account, hown, hmint, hamt,
    bind, Except.bind, pure, Except.pure]

theorem amend_eval_deposit (pid : Nat) (s : AmendAccounts) (order : SwapOrder) (n t : Nat)
    (hrec : s.order_record = some order)
    (hkey : s.order_key = (get_order_pda pid order.maker order.maker_token_mint
      order.taker_token_mint).1)
    (hsig : s.maker_info.is_signer = true)
    (hauth : s.maker_info.key = order.maker)
    (htok : s.token_program_key = splTokenId ∨ s.token_program_key = splToken2022Id)
    (hown : s.order_token_account.owner = s.order_key)
    (hmint : s.order_token_account.mint = order.maker_token_mint)
    (hlt : s.order_token_account.amount < n)
    (hbal : n - s.order_token_account.amount ≤ s.maker_token_account.amount)
    (hovf : s.order_token_account.amount + (n - s.order_token_account.amount) < U64_MOD) :
    process_change_order_amounts pid s n t =
      .ok ({ s with
        maker_token_account := { s.maker_token_account with
          amount := s.maker_token_account.amount - (n - s.order_token_account.amount) },
        order_token_account := { s.order_token_account with
          amount := s.order_token_account.amount + (n - s.order_token_account.amount) },
        order_record := some { order with maker_amount := n, taker_amount := t } },
        [⟨s.maker_token_account.key, s.order_token_account.key, s.maker_info.key,
          n - s.order_token_account.amount⟩]) := by
  unfold process_change_order_amounts
  simp [validate_order_pda, hrec, hkey, validate_authority, hsig, hauth,
    check_spl_token_program_account, htok, validate_token_account, hown, hmint, hlt,
    token_transfer, Nat.not_lt.mpr hbal, Nat.not_le.mpr hovf,
    bind, Except.bind, pure, Except.pure]

theorem amend_eval_withdraw (pid : Nat) (s : AmendAccounts) (order : SwapOrder) (n t : Nat)
    (hrec : s.order_record = some order)
    (hkey : s.order_key = (get_order_pda pid order.maker order.maker_token_mint
      order.taker_token_mint).1)
    (hsig : s.maker_info.is_signer = true)
    (hauth : s.maker_info.key = order.maker)
    (htok : s.token_program_key = splTokenId ∨ s.token_program_key = splToken2022Id)
    (hown : s.order_token_account.owner = s.order_key)
    (hmint : s.order_token_account.mint = order.maker_token_mint)
    (hgt : n < s.order_token_account.amount)
    (hovf : s.maker_token_account.amount + (s.order_token_account.amount - n) < U64_MOD) :
    process_change_order_amounts pid s n t =
      .ok ({ s with
        order_token_account := { s.order_token_account with
          amount := s.order_token_account.amount - (s.order_token_account.amount - n) },
        maker_token_account := { s.maker_token_account with
          amount := s.maker_token_account.amount + (s.order_token_account.amount - n) },
        order_record := some { order with maker_amount := n, taker_amount := t } },
        [⟨s.order_token_account.key, s.maker_token_account.key, s.order_key,
          s.order_token_account.amount - n⟩]) := by
  unfold process_change_order_amounts
  have hnlt : ¬ s.order_token_account.amount < n := by omega
  have hsrc : ¬ s.order_token_account.amount < s.order_token_account.amount - n := by omega
  simp [validate_order_pda, hrec, hkey, validate_authority, hsig, hauth,
    check_spl_token_program_account, htok, validate_token_account, hown, hmint,
    hnlt, hgt, token_transfer, hsrc, Nat.not_le.mpr hovf,
    bind, Except.bind, pure, Except.pure]

/-! Claim theorems. -/

theorem get_order_pda_first_ge (pid maker mintA mintB : Nat) :
    7 ≤ (get_order_pda pid maker mintA mintB).1 :=
  Nat.left_le_pair 7 _

/-- C1: the spec requires derived-address authentication before any field of
a supplied order record is trusted in every record-reading transition. The
source violates this in `process_change_taker` (ReassignCounterparty): it
deserializes the record directly and never recomputes the PDA (it is not
even given the program id). This theorem evaluates the handler on an order
account whose address (5) is provably not the derived address of any
(program, maker, mints) tuple: instead of failing with `AddressMismatch`,
the handler trusts the record's `maker` field and succeeds. -/
theorem change_taker_skips_pda_auth :
    process_change_taker c1state 11 =
      .ok { c1state with order_record := some { c1order with taker := 11 } } ∧
    (∀ pid maker mintA mintB : Nat, (get_order_pda pid maker mintA mintB).1 ≠ c1state.order_key) := by
  constructor
  · rfl
  · intro pid maker mintA mintB
    have h56 := get_order_pda_first_ge pid maker mintA mintB
    simp only [c1state]
    omega

/-- C8: ReassignCounterparty fails with `InvalidArgument` whenever the
`new_taker` payload differs from the supplied new-taker account's address
(an error result carries no writes, so `order.taker` is unchanged), and when
they agree it overwrites `order.taker` with `new_taker`. -/
theorem change_taker_spec (s : TakerAccounts) (order : SwapOrder)
    (h1 : s.order_record = some order) (h2 : s.maker_info.is_signer = true)
    (h3 : s.maker_info.key = order.maker) (nt : Nat) :
    (nt ≠ s.new_taker_key → process_change_taker s nt = .error .InvalidArgument) ∧
    (nt = s.new_taker_key →
      process_change_taker s nt = .ok { s with order_record := some { order with taker := nt } }) := by
  unfold process_change_taker
  rw [h1]
  simp [validate_authority, h2, h3, bind, Except.bind, pure, Except.pure, throw, throwThe,
    MonadExceptOf.throw]

/-- Witness for C8 at `s8`: payload 8 mismatches account 7 and is rejected;
payload 7 matches and replaces the taker. -/
theorem change_taker_spec_witness :
    process_change_taker s8 8 = .error .InvalidArgument ∧
    process_change_taker s8 7 =
      .ok { s8 with order_record := some ⟨10, 7, 20, 21, 5, 6, 254⟩ } :=
  ⟨(change_taker_spec s8 ⟨10, 11, 20, 21, 5, 6, 254⟩ rfl rfl rfl 8).1 (by decide),
   (change_taker_spec s8 ⟨10, 11, 20, 21, 5, 6, 254⟩ rfl rfl rfl 7).2 rfl⟩

/-- C5: CreateOrder with `maker_amount = 0` or `taker_amount = 0` fails with
`InvalidAmount`; the check runs second in the handler (after the signer
check), before the account creation and the deposit, and the error result
carries no state, so nothing is allocated or transferred. -/
theorem create_order_zero_amount_rejected (pid : Nat) (s : InitAccounts) (ma ta : Nat)
    (hs : s.maker_info.is_signer = true) (hz : ma = 0 ∨ ta = 0) :
    process_initialize_order pid s ma ta = .error .InvalidAmount := by
  unfold process_initialize_order
  simp [validate_signer, hs, validate_init_amounts, hz, bind, Except.bind]

/-- Witness for C5: CreateOrder(0, 5) on a fresh account list is rejected. -/
theorem create_order_zero_amount_rejected_witness :
    process_initialize_order 9 w4state 0 5 = .error .InvalidAmount :=
  create_order_zero_amount_rejected 9 w4state 0 5 rfl (Or.inl rfl)

/-- C4 counterexample: CreateOrder(10, 20) on an account list whose custody
token account already holds 5 tokens succeeds and leaves the custody balance
at 15, not at `maker_amount = 10`: the handler never checks that the custody
account starts empty, it only adds the deposit. -/
theorem create_order_exact_balance_cex :
    Except.map (fun r => r.1.order_maker_mint_ata.amount)
      (process_initialize_order 9 c4state 10 20) = .ok 15 ∧ (15 : Nat) ≠ 10 :=
  ⟨rfl, by decide⟩

/-- C4 (amended): every successful CreateOrder *increases* the custody
balance by exactly `maker_amount` — so the balance equals `maker_amount`
exactly when the custody account started empty — and records the request's
amounts together with maker, taker, both mints and the bump. -/
theorem create_order_escrow_spec (pid : Nat) (s : InitAccounts) (ma ta : Nat)
    (r : InitAccounts × List Transfer)
    (h : process_initialize_order pid s ma ta = .ok r) :
    r.1.order_maker_mint_ata.amount = s.order_maker_mint_ata.amount + ma ∧
    (s.order_maker_mint_ata.amount = 0 → r.1.order_maker_mint_ata.amount = ma) ∧
    r.1.order_record = some (SwapOrder.new s.maker_info.key s.taker_key s.maker_mint.key
      s.taker_mint.key ma ta
      (get_order_pda pid s.maker_info.key s.maker_mint.key s.taker_mint.key).2) ∧
    r.2 = [⟨s.maker_mint_ata.key, s.order_maker_mint_ata.key, s.maker_info.key, ma⟩] := by
  obtain ⟨hma, hta, hrec, hkey, hle, hr1, hr2⟩ := initialize_ok_inv pid s ma ta r h
  refine ⟨?_, ?_, ?_, hr2⟩ <;> simp [hr1]

/-- Witness for C4 (amended) at `w4state` (empty custody): the escrowed
balance afterwards equals the requested 10. -/
theorem create_order_escrow_spec_witness :
    process_initialize_order 9 w4state 10 20 = .ok w4result ∧
    w4result.1.order_maker_mint_ata.amount = 10 ∧
    w4state.order_maker_mint_ata.amount = 0 :=
  ⟨rfl, (create_order_escrow_spec 9 w4state 10 20 w4result rfl).2.1 rfl, rfl⟩

/-- C2: Settle fails with `InsufficientFunds` whenever the custody balance is
below `order.maker_amount` (conjunct 2, under the checks that precede the
balance test; an error result carries no state change), and every success
performs exactly the two transfers — `taker_amount` from the taker's sending
account to the maker's receiving account, taker-signed, and `maker_amount`
from custody to the taker's receiving account, signed by the order address —
leaving the Order record present and unchanged (conjunct 1). -/
theorem complete_swap_spec (pid : Nat) (s : SettleAccounts) :
    (∀ r, process_complete_swap pid s = .ok r → ∃ order,
      s.order_record = some order ∧
      order.maker_amount ≤ s.order_maker_token_ata.amount ∧
      r.2 = [⟨s.taker_sending_ata.key, s.maker_taker_mint_ata.key, s.taker_info.key,
              order.taker_amount⟩,
             ⟨s.order_maker_token_ata.key, s.taker_maker_mint_ata.key, s.order_key,
              order.maker_amount⟩] ∧
      r.1.order_record = some order ∧
      r.1.maker_taker_mint_ata.amount = s.maker_taker_mint_ata.amount + order.taker_amount ∧
      r.1.taker_maker_mint_ata.amount = s.taker_maker_mint_ata.amount + order.maker_amount ∧
      r.1.taker_sending_ata.amount = s.taker_sending_ata.amount - order.taker_amount ∧
      r.1.order_maker_token_ata.amount = s.order_maker_token_ata.amount - order.maker_amount) ∧
    (∀ order, s.order_record = some order →
      s.order_key = (get_order_pda pid order.maker order.maker_token_mint
        order.taker_token_mint).1 →
      s.taker_info.is_signer = true → s.taker_info.key = order.taker →
      (s.token_program_key = splTokenId ∨ s.token_program_key = splToken2022Id) →
      s.maker_taker_mint_ata.owner = order.maker →
      s.maker_taker_mint_ata.mint = order.taker_token_mint →
      s.taker_maker_mint_ata.owner = s.taker_info.key →
      s.taker_maker_mint_ata.mint = order.maker_token_mint →
      s.taker_sending_ata.owner = s.taker_info.key →
      s.taker_sending_ata.mint = order.taker_token_mint →
      s.order_maker_token_ata.owner = s.order_key →
      s.order_maker_token_ata.mint = order.maker_token_mint →
      s.order_maker_token_ata.amount < order.maker_amount →
      process_complete_swap pid s = .error .InsufficientFunds) := by
  constructor
  · intro r h
    unfold process_complete_swap at h
    obtain ⟨p0, hv0, h⟩ := bind_ok_inv h
    obtain ⟨order, bump⟩ := p0
    obtain ⟨hrec, hkey, hbump⟩ := validate_order_pda_ok hv0
    obtain ⟨u1, hv1, h⟩ := bind_ok_inv h
    obtain ⟨u2, hv2, h⟩ := bind_ok_inv h
    obtain ⟨u3, hv3, h⟩ := bind_ok_inv h
    obtain ⟨u4, hv4, h⟩ := bind_ok_inv h
    obtain ⟨u5, hv5, h⟩ := bind_ok_inv h
    obtain ⟨u6, hv6, h⟩ := bind_ok_inv h
    simp only [] at h
    split at h
    · exact absurd h (by simp [throw, throwThe, MonadExceptOf.throw])
    · next hge =>
      obtain ⟨p1, hp1, h⟩ := bind_ok_inv h
      obtain ⟨src1, dst1⟩ := p1
      obtain ⟨hle1, hovf1, hsrc1, hdst1⟩ := token_transfer_ok hp1
      obtain ⟨p2, hp2, h⟩ := bind_ok_inv h
      obtain ⟨src2, dst2⟩ := p2
      obtain ⟨hle2, hovf2, hsrc2, hdst2⟩ := token_transfer_ok hp2
      have hs1 : src1 = { s.taker_sending_ata with
        amount := s.taker_sending_ata.amount - order.taker_amount } := hsrc1
      have hd1 : dst1 = { s.maker_taker_mint_ata with
        amount := s.maker_taker_mint_ata.amount + order.taker_amount } := hdst1
      have hs2 : src2 = { s.order_maker_token_ata with
        amount := s.order_maker_token_ata.amount - order.maker_amount } := hsrc2
      have hd2 : dst2 = { s.taker_maker_mint_ata with
        amount := s.taker_maker_mint_ata.amount + order.maker_amount } := hdst2
      subst hs1; subst hd1; subst hs2; subst hd2
      simp only [pure, Except.pure] at h
      cases h
      exact ⟨order, hrec, by omega, rfl, hrec, rfl, rfl, rfl, rfl⟩
  · intro order hrec hkey hsig htak htok ho1 hm1 ho2 hm2 ho3 hm3 ho4 hm4 hlt
    unfold process_complete_swap
    simp [validate_order_pda, hrec, hkey, validate_taker, hsig, htak,
      check_spl_token_program_account, htok, validate_token_account,
      ho1, hm1, ho2, hm2, ho3, hm3, ho4, hm4, hlt,
      bind, Except.bind, throw, throwThe, MonadExceptOf.throw]

/-- Witness companion facts for C2: a concrete failing Settle and a concrete
succeeding one (the success side is exercised through the theorem in
`complete_swap_spec` conjunct proofs; this closed statement evaluates both). -/
theorem complete_swap_spec_witness :
    process_complete_swap 9 s2bad = .error .InsufficientFunds ∧
    Except.map (fun r => (r.2, r.1.order_record)) (process_complete_swap 9 s2good) =
      .ok ([⟨31, 30, 11, 40⟩, ⟨33, 32, pdaK, 100⟩], some ⟨10, 11, 20, 21, 100, 40, 254⟩) :=
  ⟨(complete_swap_spec 9 s2bad).2 ⟨10, 11, 20, 21, 100, 40, 254⟩ rfl rfl rfl rfl
    (Or.inl rfl) rfl rfl rfl rfl rfl rfl rfl rfl (by decide), rfl⟩

/-- C3 counterexample: CloseOrder on `c3z_state`, whose custody token account
is empty but still holds 2000 lamports, succeeds yet leaves the custody token
account open (`order_token_ata_open = true`) with its 2000 lamports
unreclaimed: the caller receives only the order record's 1500 lamports
(10 + 1500 = 1510). The claim's unconditional \"custody account is closed and
its lamports returned\" is false when the custody balance is zero. -/
theorem close_order_custody_left_open_cex :
    process_close_order 9 c3z_state =
      .ok (⟨⟨10, true⟩, pdaK, none, 0, ⟨31, pdaK, 20, 0⟩, 2000, true,
            ⟨30, 10, 20, 5⟩, 1510, 1⟩, []) := rfl

/-- C3 (amended): every successful CloseOrder zeroes the Order record and
returns the record's lamports to the caller; when the custody balance is
positive at close time, exactly that balance is first transferred to the
maker's holding account and the custody token account is then closed, its
lamports also going to the caller; when the custody balance is zero, the
custody token account is left open and keeps its lamports. -/
theorem close_order_spec (pid : Nat) (s : CloseAccounts)
    (r : CloseAccounts × List Transfer)
    (h : process_close_order pid s = .ok r) :
    r.1.order_record = none ∧
    r.1.order_lamports = 0 ∧
    (0 < s.order_token_ata.amount →
      r.2 = [⟨s.order_token_ata.key, s.maker_token_ata.key, s.order_key,
              s.order_token_ata.amount⟩] ∧
      r.1.order_token_ata.amount = 0 ∧
      r.1.maker_token_ata.amount = s.maker_token_ata.amount + s.order_token_ata.amount ∧
      r.1.order_token_ata_open = false ∧
      r.1.order_token_ata_lamports = 0 ∧
      r.1.authority_lamports =
        s.authority_lamports + s.order_token_ata_lamports + s.order_lamports) ∧
    (s.order_token_ata.amount = 0 →
      r.2 = [] ∧
      r.1.order_token_ata_open = s.order_token_ata_open ∧
      r.1.order_token_ata_lamports = s.order_token_ata_lamports ∧
      r.1.maker_token_ata = s.maker_token_ata ∧
      r.1.authority_lamports = s.authority_lamports + s.order_lamports) := by
  unfold process_close_order at h
  obtain ⟨p0, hv0, h⟩ := bind_ok_inv h
  obtain ⟨order, bump⟩ := p0
  obtain ⟨hrec, hkey, hbump⟩ := validate_order_pda_ok hv0
  obtain ⟨u1, hv1, h⟩ := bind_ok_inv h
  obtain ⟨u2, hv2, h⟩ := bind_ok_inv h
  obtain ⟨u3, hv3, h⟩ := bind_ok_inv h
  obtain ⟨u4, hv4, h⟩ := bind_ok_inv h
  simp only [] at h
  split at h
  · next hpos =>
    obtain ⟨p, hp, h⟩ := bind_ok_inv h
    obtain ⟨src, dst⟩ := p
    obtain ⟨hle, hovf, hsrc, hdst⟩ := token_transfer_ok hp
    have hs : src = { s.order_token_ata with
      amount := s.order_token_ata.amount - s.order_token_ata.amount } := hsrc
    have hd : dst = { s.maker_token_ata with
      amount := s.maker_token_ata.amount + s.order_token_ata.amount } := hdst
    subst hs; subst hd
    obtain ⟨q, hq, h⟩ := bind_ok_inv h
    simp only [pure, Except.pure] at hq
    cases hq
    simp only [pure, Except.pure] at h
    cases h
    refine ⟨rfl, rfl, fun hp2 => ⟨rfl, by simp only []; omega, rfl, rfl, rfl, rfl⟩,
      fun hz => absurd hz (by omega)⟩
  · next hz =>
    obtain ⟨q, hq, h⟩ := bind_ok_inv h
    simp only [pure, Except.pure] at hq
    cases hq
    simp only [pure, Except.pure] at h
    cases h
    exact ⟨rfl, rfl, fun hp2 => absurd hp2 (by omega), fun hzz => ⟨rfl, rfl, rfl, rfl, rfl⟩⟩

/-- Witness for C3 (amended) at `c3w_state` (custody balance 70): record
zeroed, custody closed, and all 1500 + 2000 lamports returned on top of the
caller's 10. -/
theorem close_order_spec_witness :
    process_close_order 9 c3w_state = .ok c3w_result ∧
    c3w_result.1.order_record = none ∧
    c3w_result.1.order_token_ata_open = false ∧
    c3w_result.1.authority_lamports =
      c3w_state.authority_lamports + c3w_state.order_token_ata_lamports +
        c3w_state.order_lamports := by
  have H := close_order_spec 9 c3w_state c3w_result rfl
  exact ⟨rfl, H.1, (H.2.2.1 (by decide)).2.2.2.1, (H.2.2.1 (by decide)).2.2.2.2.2⟩

/-- C6: AmendAmounts reconciles escrow against the actual custody balance
`c` with target `n`: when `c < n` it deposits exactly `n - c` from the maker
into custody (conjunct 1); when `n < c` it refunds exactly `c - n` from
custody to the maker (conjunct 2); when `c = n` it performs no transfer
(conjunct 3); in every case both stored amount fields are overwritten with
the request values. -/
theorem amend_reconciliation_spec (pid : Nat) (s : AmendAccounts) (order : SwapOrder) (n t : Nat)
    (hrec : s.order_record = some order)
    (hkey : s.order_key = (get_order_pda pid order.maker order.maker_token_mint
      order.taker_token_mint).1)
    (hsig : s.maker_info.is_signer = true)
    (hauth : s.maker_info.key = order.maker)
    (htok : s.token_program_key = splTokenId ∨ s.token_program_key = splToken2022Id)
    (hown : s.order_token_account.owner = s.order_key)
    (hmint : s.order_token_account.mint = order.maker_token_mint) :
    (s.order_token_account.amount < n →
      n - s.order_token_account.amount ≤ s.maker_token_account.amount →
      s.order_token_account.amount + (n - s.order_token_account.amount) < U64_MOD →
      process_change_order_amounts pid s n t =
        .ok ({ s with
          maker_token_account := { s.maker_token_account with
            amount := s.maker_token_account.amount - (n - s.order_token_account.amount) },
          order_token_account := { s.order_token_account with
            amount := s.order_token_account.amount + (n - s.order_token_account.amount) },
          order_record := some { order with maker_amount := n, taker_amount := t } },
          [⟨s.maker_token_account.key, s.order_token_account.key, s.maker_info.key,
            n - s.order_token_account.amount⟩])) ∧
    (n < s.order_token_account.amount →
      s.maker_token_account.amount + (s.order_token_account.amount - n) < U64_MOD →
      process_change_order_amounts pid s n t =
        .ok ({ s with
          order_token_account := { s.order_token_account with
            amount := s.order_token_account.amount - (s.order_token_account.amount - n) },
          maker_token_account := { s.maker_token_account with
            amount := s.maker_token_account.amount + (s.order_token_account.amount - n) },
          order_record := some { order with maker_amount := n, taker_amount := t } },
          [⟨s.order_token_account.key, s.maker_token_account.key, s.order_key,
            s.order_token_account.amount - n⟩])) ∧
    (s.order_token_account.amount = n →
      process_change_order_amounts pid s n t =
        .ok ({ s with
          order_record := some { order with maker_amount := n, taker_amount := t } }, [])) :=
  ⟨fun hlt hbal hovf =>
    amend_eval_deposit pid s order n t hrec hkey hsig hauth htok hown hmint hlt hbal hovf,
   fun hgt hovf =>
    amend_eval_withdraw pid s order n t hrec hkey hsig hauth htok hown hmint hgt hovf,
   fun heq =>
    amend_eval_equal pid s order n t hrec hkey hsig hauth htok hown hmint heq⟩

/-- Witness for C6: raising the target from 100 to 150 deposits exactly 50;
lowering from 150 to 100 refunds exactly 50; re-stating 100 at balance 100
moves nothing while still rewriting the stored taker amount to 7. -/
theorem amend_reconciliation_spec_witness :
    process_change_order_amounts 9 s6a 150 7 =
      .ok (⟨⟨10, true⟩, pdaK, some ⟨10, 11, 20, 21, 150, 7, 254⟩, ⟨31, pdaK, 20, 150⟩,
        ⟨40, 10, 20, 450⟩, 1⟩, [⟨40, 31, 10, 50⟩]) ∧
    process_change_order_amounts 9 s6b 100 7 =
      .ok (⟨⟨10, true⟩, pdaK, some ⟨10, 11, 20, 21, 100, 7, 254⟩, ⟨31, pdaK, 20, 100⟩,
        ⟨40, 10, 20, 550⟩, 1⟩, [⟨31, 40, pdaK, 50⟩]) ∧
    process_change_order_amounts 9 s6c 100 7 =
      .ok (⟨⟨10, true⟩, pdaK, some ⟨10, 11, 20, 21, 100, 7, 254⟩, ⟨31, pdaK, 20, 100⟩,
        ⟨40, 10, 20, 500⟩, 1⟩, []) := by
  refine ⟨?_, ?_, ?_⟩
  · exact (amend_reconciliation_spec 9 s6a ord6 150 7 rfl rfl rfl rfl (Or.inl rfl)
      rfl rfl).1 (by decide) (by decide) (by decide)
  · exact (amend_reconciliation_spec 9 s6b ⟨10, 11, 20, 21, 150, 40, 254⟩ 100 7 rfl rfl rfl
      rfl (Or.inl rfl) rfl rfl).2.1 (by decide) (by decide)
  · exact (amend_reconciliation_spec 9 s6c ord6 100 7 rfl rfl rfl rfl (Or.inl rfl)
      rfl rfl).2.2 (by decide)

/-- C7: AmendAmounts is idempotent with respect to the custody balance —
after any successful invocation the custody balance equals the target, so a
second invocation with the same `new_maker_amount` (any taker amount)
succeeds, performs no transfer, and leaves the custody balance at the
target. -/
theorem amend_idempotent (pid : Nat) (s : AmendAccounts) (n t t2 : Nat)
    (r : AmendAccounts × List Transfer)
    (h : process_change_order_amounts pid s n t = .ok r) :
    Except.map (fun r2 => (r2.2, r2.1.order_token_account.amount))
      (process_change_order_amounts pid r.1 n t2) = .ok ([], n) := by
  obtain ⟨order, hrec, hkey, hsig, hauth, htok, hown, hmint, hrrec, hramt, hrmi, hrok,
    hrtp, hrk, hro, hrm, hrmk, htr⟩ := amend_ok_inv pid s n t r h
  rw [amend_eval_equal pid r.1 { order with maker_amount := n, taker_amount := t } n t2 hrrec
    (by rw [hrok, hkey]) (by rw [hrmi]; exact hsig) (by rw [hrmi]; exact hauth)
    (by rw [hrtp]; exact htok) (by rw [hro, hrok]; exact hown) (by rw [hrm]; exact hmint)
    hramt]
  simp [Except.map, hramt]

/-- Witness for C7: AmendAmounts(60, 5) on `s7` deposits 30; running
AmendAmounts(60, 6) on the resulting accounts transfers nothing. -/
theorem amend_idempotent_witness :
    Except.map (fun r2 => (r2.2, r2.1.order_token_account.amount))
      (process_change_order_amounts 9 r7.1 60 6) = .ok ([], 60) :=
  amend_idempotent 9 s7 60 5 6 r7 rfl

/-- C9: AmendAmounts applies no positivity check: with the same
preconditions as any amendment (and no amount precondition), a request for
`new_maker_amount = 0` and `new_taker_amount = 0` succeeds — refunding the
whole escrow to the maker when the custody balance is positive (conjunct 1),
moving nothing when it is already empty (conjunct 2) — and stores both zero
amounts as-is while the order stays open; the amount-positive check
(`validate_init_amounts`, conjunct 3) rejects zeros and is invoked only by
CreateOrder. -/
theorem amend_zero_spec (pid : Nat) (s : AmendAccounts) (order : SwapOrder)
    (hrec : s.order_record = some order)
    (hkey : s.order_key = (get_order_pda pid order.maker order.maker_token_mint
      order.taker_token_mint).1)
    (hsig : s.maker_info.is_signer = true)
    (hauth : s.maker_info.key = order.maker)
    (htok : s.token_program_key = splTokenId ∨ s.token_program_key = splToken2022Id)
    (hown : s.order_token_account.owner = s.order_key)
    (hmint : s.order_token_account.mint = order.maker_token_mint)
    (hovf : s.maker_token_account.amount + s.order_token_account.amount < U64_MOD) :
    (0 < s.order_token_account.amount →
      process_change_order_amounts pid s 0 0 =
        .ok ({ s with
          order_token_account := { s.order_token_account with amount := 0 },
          maker_token_account := { s.maker_token_account with
            amount := s.maker_token_account.amount + s.order_token_account.amount },
          order_record := some { order with maker_amount := 0, taker_amount := 0 } },
          [⟨s.order_token_account.key, s.maker_token_account.key, s.order_key,
            s.order_token_account.amount⟩])) ∧
    (s.order_token_account.amount = 0 →
      process_change_order_amounts pid s 0 0 =
        .ok ({ s with
          order_record := some { order with maker_amount := 0, taker_amount := 0 } }, [])) ∧
    validate_init_amounts 0 0 = .error .InvalidAmount := by
  refine ⟨fun hpos => ?_, fun hz =>
    amend_eval_equal pid s order 0 0 hrec hkey hsig hauth htok hown hmint hz, rfl⟩
  have H := amend_eval_withdraw pid s order 0 0 hrec hkey hsig hauth htok hown hmint hpos
    (by omega)
  rw [H]
  simp [Nat.sub_zero, Nat.sub_self]

/-- Witness for C9 at `s9` (custody balance 80): AmendAmounts(0, 0) refunds
all 80 to the maker and stores zero amounts with the record still present. -/
theorem amend_zero_spec_witness :
    process_change_order_amounts 9 s9 0 0 =
      .ok ({ s9 with
        order_token_account := { s9.order_token_account with amount := 0 },
        maker_token_account := { s9.maker_token_account with
          amount := s9.maker_token_account.amount + s9.order_token_account.amount },
        order_record := some { ord6 with maker_amount := 0, taker_amount := 0 } },
        [⟨s9.order_token_account.key, s9.maker_token_account.key, s9.order_key,
          s9.order_token_account.amount⟩]) :=
  (amend_zero_spec 9 s9 ord6 rfl rfl rfl rfl (Or.inl rfl) rfl rfl (by decide)).1 (by decide)

/-- C10: AmendAmounts validates the custody token account (owner = order
address, mint = order's maker asset; the handler runs that check twice, as
the source does) but never validates the maker's holding account: replacing
the fourth account's owner and mint with arbitrary values changes nothing in
the handler's outcome — in particular no validation rejects it (conjunct 1)
— and every transfer a success performs uses that account directly as the
deposit source or the refund destination (conjunct 2). -/
theorem amend_maker_account_unvalidated (pid : Nat) (s : AmendAccounts) (o m n t : Nat) :
    process_change_order_amounts pid
        { s with maker_token_account := { s.maker_token_account with owner := o, mint := m } } n t
      = Except.map (fun r => ({ r.1 with
          maker_token_account := { r.1.maker_token_account with owner := o, mint := m } }, r.2))
          (process_change_order_amounts pid s n t) ∧
    (∀ r, process_change_order_amounts pid s n t = .ok r →
      ∀ tr ∈ r.2, tr.source = s.maker_token_account.key ∨ tr.dest = s.maker_token_account.key) := by
  constructor
  · unfold process_change_order_amounts
    cases hpda : validate_order_pda pid s.order_key s.order_record with
    | error e => simp [hpda, bind, Except.bind, Except.map]
    | ok p =>
      obtain ⟨order, bump⟩ := p
      cases hva : validate_authority s.maker_info order with
      | error e => simp [hpda, hva, bind, Except.bind, Except.map]
      | ok u1 =>
        cases hts : check_spl_token_program_account s.token_program_key with
        | error e => simp [hpda, hva, hts, bind, Except.bind, Except.map]
        | ok u2 =>
          cases hta : validate_token_account s.order_token_account s.order_key
              order.maker_token_mint with
          | error e => simp [hpda, hva, hts, hta, bind, Except.bind, Except.map]
          | ok u3 =>
            by_cases hlt : s.order_token_account.amount < n
            · simp [hpda, hva, hts, hta, hlt, bind, Except.bind, Except.map,
                token_transfer, pure, Except.pure]
              split_ifs <;> simp [Except.map]
            · by_cases hgt : n < s.order_token_account.amount
              · simp [hpda, hva, hts, hta, hlt, hgt, bind, Except.bind, Except.map,
                  token_transfer, pure, Except.pure]
                split_ifs <;> simp [Except.map]
              · simp [hpda, hva, hts, hta, hlt, hgt, bind, Except.bind, Except.map,
                  pure, Except.pure]
  · intro r h tr htr
    obtain ⟨order, hrec, hkey, hsig, hauth, htok, hown, hmint, hrrec, hramt, hrmi, hrok,
      hrtp, hrk, hro, hrm, hrmk, htrs⟩ := amend_ok_inv pid s n t r h
    rcases htrs tr htr with ⟨h1, h2⟩ | ⟨h1, h2⟩
    · exact Or.inl h1
    · exact Or.inr h2

end SplergP2p
